import Mathlib

/-!
Verification of the ChewJo/Python-h5-converter repository: the rainfall
colour classifier and georeferencing arithmetic of `src/main.py`, and the
catch-up crawler of `src/menu.py`, shallowly embedded in Lean 4.

Rainfall intensities are embedded as rationals (the Python code compares
float grids against the decimal literals 0.01, 0.5, 1, 2, 4, 8, 16, 32;
all claims settled here concern values far from any representation
boundary, so the rational embedding is faithful).
-/

/-- One RGBA pixel: four 8-bit channels, as written into the numpy
`uint8` array of shape (h, w, 4). -/
structure RGBA where
  r : Nat
  g : Nat
  b : Nat
  a : Nat
deriving DecidableEq, Repr

/-- Per-cell semantics of `apply_colour_thresholds` (src/main.py lines
19-41).  The numpy code starts from `np.zeros`, writes each band mask in
source order (a later write overwrites an earlier one at any cell where
both masks hold), and finally forces cells with `data <= 0` to
transparent black.  All masks and writes are elementwise, so the grid
function is the cellwise map of this function. -/
def applyCell (x : ℚ) : RGBA :=
  -- the thresholds 1/100 and 1/2 are the source's decimal literals 0.01 and 0.5
  let c0 : RGBA := ⟨0, 0, 0, 0⟩
  let c1 := if 1/100 ≤ x ∧ x < 1/2 then (⟨0, 0, 254, 255⟩ : RGBA) else c0   -- dark blue
  let c2 := if 1/2 ≤ x ∧ x < 1 then (⟨50, 101, 254, 255⟩ : RGBA) else c1    -- light blue
  let c3 := if 1 ≤ x ∧ x < 2 then (⟨127, 127, 0, 255⟩ : RGBA) else c2      -- green
  let c4 := if 2 ≤ x ∧ x < 4 then (⟨254, 203, 0, 255⟩ : RGBA) else c3      -- yellow
  let c5 := if 4 ≤ x ∧ x < 8 then (⟨254, 152, 0, 255⟩ : RGBA) else c4      -- orange
  let c6 := if 8 ≤ x ∧ x < 16 then (⟨254, 0, 0, 255⟩ : RGBA) else c5       -- red
  let c7 := if 16 ≤ x ∧ x < 32 then (⟨254, 0, 254, 255⟩ : RGBA) else c6    -- pink
  let c8 := if 32 ≤ x then (⟨229, 254, 254, 255⟩ : RGBA) else c7           -- whiteish
  if x ≤ 0 then ⟨0, 0, 0, 0⟩ else c8

/-- `apply_colour_thresholds` on a whole observation grid (src/main.py
lines 19-41), grids as row-major lists of rows. -/
def apply_colour_thresholds (data : List (List ℚ)) : List (List RGBA) :=
  data.map (fun row => row.map applyCell)

/-- The eight opaque palette colours of the band table (src/main.py
lines 10-17 and 29-36). -/
def palette : List RGBA :=
  [⟨0, 0, 254, 255⟩, ⟨50, 101, 254, 255⟩, ⟨127, 127, 0, 255⟩,
   ⟨254, 203, 0, 255⟩, ⟨254, 152, 0, 255⟩, ⟨254, 0, 0, 255⟩,
   ⟨254, 0, 254, 255⟩, ⟨229, 254, 254, 255⟩]

/-- The number of band masks of src/main.py lines 29-36 that a value
matches (the eight `colour(...)` calls, in source order). -/
def matchCount (x : ℚ) : ℕ :=
  (if 1/100 ≤ x ∧ x < 1/2 then 1 else 0) +
  (if 1/2 ≤ x ∧ x < 1 then 1 else 0) +
  (if 1 ≤ x ∧ x < 2 then 1 else 0) +
  (if 2 ≤ x ∧ x < 4 then 1 else 0) +
  (if 4 ≤ x ∧ x < 8 then 1 else 0) +
  (if 8 ≤ x ∧ x < 16 then 1 else 0) +
  (if 16 ≤ x ∧ x < 32 then 1 else 0) +
  (if 32 ≤ x then 1 else 0)

/-- Characters after the last slash of a POSIX path, as a list. -/
def basenameL (s : List Char) : List Char :=
  (s.reverse.takeWhile (fun c => c ≠ '/')).reverse

/-- `os.path.basename` for the S3 keys of src/menu.py (lines 34, 77, 82):
the part after the last slash. -/
def basename (s : String) : String := ⟨basenameL s.data⟩

/-- List-level part of `stripExt`. -/
def stripExtL (s : List Char) : List Char :=
  match s.reverse.dropWhile (fun c => c ≠ '.') with
  | [] => s
  | _ :: pre => if pre.reverse.any (fun c => c ≠ '.') then pre.reverse else s

/-- The root part of `os.path.splitext` (used at src/menu.py lines 34,
82): drop the extension at the last dot, except when every character
before that dot is itself a dot (Python keeps leading-dot names such as
".h5" whole). -/
def stripExt (s : String) : String := ⟨stripExtL s.data⟩

/-- Lexicographic order on the character lists of two strings. -/
def strLeB : List Char → List Char → Bool
  | [], _ => true
  | _ :: _, [] => false
  | a :: as, b :: bs => if a = b then strLeB as bs else decide (a < b)

/-- Insert into a descending-sorted list, keyed by a string. -/
def insertDescBy (key : α → String) (a : α) : List α → List α
  | [] => [a]
  | b :: bs => if strLeB (key b).data (key a).data then a :: b :: bs else b :: insertDescBy key a bs

/-- Descending sort by a string key, modelling `sorted(..., reverse=True)`
of `list_prefixes` / `list_files` (src/menu.py lines 16-18, 28-30); on
the distinct names of an archive listing any correct descending sort
agrees with Python stable sorting. -/
def sortDescBy (key : α → String) (l : List α) : List α := l.foldr (insertDescBy key) []

/-- The filter `f["Key"].endswith(".h5")` of `list_files`
(src/menu.py line 29). -/
def endsWithH5 (s : String) : Bool :=
  match s.data.reverse with
  | '5' :: 'h' :: '.' :: _ => true
  | _ => false

/-- A day prefix of the remote archive with the object keys under it. -/
structure DayDir where
  name : String
  files : List String

/-- A month prefix with its day prefixes. -/
structure MonthDir where
  name : String
  days : List DayDir

/-- A year prefix with its month prefixes. -/
structure YearDir where
  name : String
  months : List MonthDir

/-- The remote archive as listable by the S3 client: year prefixes under
"radar/", month prefixes under each year, day prefixes under each month,
object keys under each day. -/
abbrev Archive := List YearDir

/-- The crawler state that the claims observe: the keys downloaded and
converted so far (in order), and the filenames present in the output
folder (the conversion records). -/
structure CrawlState where
  processed : List String
  outputs : List String
deriving DecidableEq, Repr

/-- `processed_file_exists` (src/menu.py lines 33-40): a conversion
record exists iff `<base>_greyscale.tif` or `<base>_coloured.tif` is in
the output folder, where `<base>` is the key basename without its
extension. -/
def processed_file_exists (key : String) (outputs : List String) : Bool :=
  let base := stripExt (basename key)
  decide ((base ++ "_greyscale.tif") ∈ outputs) ||
    decide ((base ++ "_coloured.tif") ∈ outputs)

/-- The inner `for key in files` loop of `process_until_caught_up`
(src/menu.py lines 62-97).  The Bool of the result is true when the
`return` of line 69 fired, terminating the whole crawl.  Processing a
key appends it to `processed` and creates its conversion record, since
`process_radar_file` writes `output_filename` into the output folder. -/
def crawlFiles (stopOnCatchup colour : Bool) : List String → CrawlState → CrawlState × Bool
  | [], st => (st, false)
  | key :: rest, st =>
    if processed_file_exists key st.outputs then
      if stopOnCatchup then (st, true)
      else crawlFiles stopOnCatchup colour rest st
    else
      let base := stripExt (basename key)
      let outName := if colour then base ++ "_coloured.tif" else base ++ "_greyscale.tif"
      crawlFiles stopOnCatchup colour rest ⟨st.processed ++ [key], st.outputs ++ [outName]⟩

/-- The `for day in days` loop: each day lists its files descending,
filtered to `.h5` (`list_files`, src/menu.py lines 21-31, 60). -/
def crawlDays (stopOnCatchup colour : Bool) : List DayDir → CrawlState → CrawlState × Bool
  | [], st => (st, false)
  | d :: rest, st =>
    let res := crawlFiles stopOnCatchup colour (sortDescBy id (d.files.filter endsWithH5)) st
    if res.2 then res else crawlDays stopOnCatchup colour rest res.1

/-- The `for month in months` loop (src/menu.py lines 54-55). -/
def crawlMonths (stopOnCatchup colour : Bool) : List MonthDir → CrawlState → CrawlState × Bool
  | [], st => (st, false)
  | m :: rest, st =>
    let res := crawlDays stopOnCatchup colour (sortDescBy DayDir.name m.days) st
    if res.2 then res else crawlMonths stopOnCatchup colour rest res.1

/-- The `for year in years` loop (src/menu.py lines 51-52). -/
def crawlYears (stopOnCatchup colour : Bool) : List YearDir → CrawlState → CrawlState × Bool
  | [], st => (st, false)
  | y :: rest, st =>
    let res := crawlMonths stopOnCatchup colour (sortDescBy MonthDir.name y.months) st
    if res.2 then res else crawlYears stopOnCatchup colour rest res.1

/-- `process_until_caught_up` (src/menu.py lines 42-102): a descending
depth-first walk over the archive hierarchy, downloading and converting
every key without a conversion record; at a key with a record it either
returns at once (`stop_on_catchup`) or skips just that key. -/
def process_until_caught_up (archive : Archive) (colour stopOnCatchup : Bool)
    (st : CrawlState) : CrawlState × Bool :=
  crawlYears stopOnCatchup colour (sortDescBy YearDir.name archive) st

/-- The three-day synthetic archive of the catch-up scenarios: days
D1 (oldest) < D2 < D3 (newest), one observation file each. -/
def scenarioArchive : Archive :=
  [⟨"radar/2024/",
    [⟨"radar/2024/01/",
      [⟨"radar/2024/01/01/", ["radar/2024/01/01/obs1.h5"]⟩,
       ⟨"radar/2024/01/02/", ["radar/2024/01/02/obs2.h5"]⟩,
       ⟨"radar/2024/01/03/", ["radar/2024/01/03/obs3.h5"]⟩]⟩]⟩]

/-- An output folder holding a conversion record only for the D2 file. -/
def scenarioInit : CrawlState := ⟨[], ["obs2_greyscale.tif"]⟩

/-- An affine geo-transform with rasterio coefficient layout:
(col, row) ↦ (a·col + b·row + c, d·col + e·row + f). -/
structure Affine where
  a : ℚ
  b : ℚ
  c : ℚ
  d : ℚ
  e : ℚ
  f : ℚ
deriving DecidableEq, Repr

/-- Apply an affine geo-transform to a pixel coordinate. -/
def Affine.apply (t : Affine) (col row : ℚ) : ℚ × ℚ :=
  (t.a * col + t.b * row + t.c, t.d * col + t.e * row + t.f)

/-- Modelled from the spec: `rasterio.transform.from_bounds`, the
external library helper called at src/main.py line 67, whose code is not
part of this repository.  Per the spec (§3, Geo-Transform): pixel width
(ur_lon−ll_lon)/width, pixel height (ur_lat−ll_lat)/height applied with
a negative vertical sign so row 0 maps to the northern edge, and origin
at the upper-left corner (ll_lon, ur_lat). -/
def from_bounds (west south east north : ℚ) (width height : ℕ) : Affine :=
  ⟨(east - west) / width, 0, west, 0, (south - north) / height, north⟩

/-- Whether a rasterio write raises. -/
inductive WriteOutcome
  | ok
  | err
deriving DecidableEq, Repr

/-- Exit-path model of `process_radar_file` (src/main.py lines 43-150),
tracking the output folder contents.  `wTemp` / `wFinal` say whether the
plain temporary write (lines 75-105) and the compressed final write
(lines 113-145) succeed; a failed write raises, and the exception
propagates with the folder contents at that point (`Except.error`).  The
guarded temp-file removal (lines 148-149) is straight-line code executed
after the final write, exactly as in the source.  Pixel contents and
colour mode do not affect which files exist, so they are not tracked. -/
def process_radar_file (wTemp wFinal : WriteOutcome) (finalName : String)
    (fs : List String) : Except (List String) (List String × String) :=
  match wTemp with
  | .err => .error fs
  | .ok =>
    let fs1 := fs ++ ["temp_output.tif"]
    match wFinal with
    | .err => .error fs1
    | .ok =>
      let fs2 := fs1 ++ [finalName]
      let fs3 := if "temp_output.tif" ∈ fs2 then fs2.erase "temp_output.tif" else fs2
      .ok (fs3, finalName)


lemma applyCell_of_nonpos (x : ℚ) (h : x ≤ 0) : applyCell x = ⟨0, 0, 0, 0⟩ := by
  simp only [applyCell]
  rw [if_pos h]

lemma applyCell_of_below (x : ℚ) (h0 : 0 < x) (h1 : x < 1/100) :
    applyCell x = ⟨0, 0, 0, 0⟩ := by
  simp only [applyCell]
  rw [if_neg (by intro h; linarith : ¬ x ≤ 0),
      if_neg (by intro h; linarith : ¬ (32:ℚ) ≤ x),
      if_neg (by rintro ⟨a, b⟩; linarith : ¬ ((16:ℚ) ≤ x ∧ x < 32)),
      if_neg (by rintro ⟨a, b⟩; linarith : ¬ ((8:ℚ) ≤ x ∧ x < 16)),
      if_neg (by rintro ⟨a, b⟩; linarith : ¬ ((4:ℚ) ≤ x ∧ x < 8)),
      if_neg (by rintro ⟨a, b⟩; linarith : ¬ ((2:ℚ) ≤ x ∧ x < 4)),
      if_neg (by rintro ⟨a, b⟩; linarith : ¬ ((1:ℚ) ≤ x ∧ x < 2)),
      if_neg (by rintro ⟨a, b⟩; linarith : ¬ (1/2 ≤ x ∧ x < 1)),
      if_neg (by rintro ⟨a, b⟩; linarith : ¬ (1/100 ≤ x ∧ x < 1/2))]

lemma applyCell_band1 (x : ℚ) (h1 : 1/100 ≤ x) (h2 : x < 1/2) :
    applyCell x = ⟨0, 0, 254, 255⟩ := by
  simp only [applyCell]
  rw [if_neg (by intro h; linarith : ¬ x ≤ 0),
      if_neg (by intro h; linarith : ¬ (32:ℚ) ≤ x),
      if_neg (by rintro ⟨a, b⟩; linarith : ¬ ((16:ℚ) ≤ x ∧ x < 32)),
      if_neg (by rintro ⟨a, b⟩; linarith : ¬ ((8:ℚ) ≤ x ∧ x < 16)),
      if_neg (by rintro ⟨a, b⟩; linarith : ¬ ((4:ℚ) ≤ x ∧ x < 8)),
      if_neg (by rintro ⟨a, b⟩; linarith : ¬ ((2:ℚ) ≤ x ∧ x < 4)),
      if_neg (by rintro ⟨a, b⟩; linarith : ¬ ((1:ℚ) ≤ x ∧ x < 2)),
      if_neg (by rintro ⟨a, b⟩; linarith : ¬ (1/2 ≤ x ∧ x < 1)),
      if_pos ⟨h1, h2⟩]

lemma applyCell_band2 (x : ℚ) (h1 : 1/2 ≤ x) (h2 : x < 1) :
    applyCell x = ⟨50, 101, 254, 255⟩ := by
  simp only [applyCell]
  rw [if_neg (by intro h; linarith : ¬ x ≤ 0),
      if_neg (by intro h; linarith : ¬ (32:ℚ) ≤ x),
      if_neg (by rintro ⟨a, b⟩; linarith : ¬ ((16:ℚ) ≤ x ∧ x < 32)),
      if_neg (by rintro ⟨a, b⟩; linarith : ¬ ((8:ℚ) ≤ x ∧ x < 16)),
      if_neg (by rintro ⟨a, b⟩; linarith : ¬ ((4:ℚ) ≤ x ∧ x < 8)),
      if_neg (by rintro ⟨a, b⟩; linarith : ¬ ((2:ℚ) ≤ x ∧ x < 4)),
      if_neg (by rintro ⟨a, b⟩; linarith : ¬ ((1:ℚ) ≤ x ∧ x < 2)),
      if_pos ⟨h1, h2⟩]

lemma applyCell_band3 (x : ℚ) (h1 : 1 ≤ x) (h2 : x < 2) :
    applyCell x = ⟨127, 127, 0, 255⟩ := by
  simp only [applyCell]
  rw [if_neg (by intro h; linarith : ¬ x ≤ 0),
      if_neg (by intro h; linarith : ¬ (32:ℚ) ≤ x),
      if_neg (by rintro ⟨a, b⟩; linarith : ¬ ((16:ℚ) ≤ x ∧ x < 32)),
      if_neg (by rintro ⟨a, b⟩; linarith : ¬ ((8:ℚ) ≤ x ∧ x < 16)),
      if_neg (by rintro ⟨a, b⟩; linarith : ¬ ((4:ℚ) ≤ x ∧ x < 8)),
      if_neg (by rintro ⟨a, b⟩; linarith : ¬ ((2:ℚ) ≤ x ∧ x < 4)),
      if_pos ⟨h1, h2⟩]

lemma applyCell_band4 (x : ℚ) (h1 : 2 ≤ x) (h2 : x < 4) :
    applyCell x = ⟨254, 203, 0, 255⟩ := by
  simp only [applyCell]
  rw [if_neg (by intro h; linarith : ¬ x ≤ 0),
      if_neg (by intro h; linarith : ¬ (32:ℚ) ≤ x),
      if_neg (by rintro ⟨a, b⟩; linarith : ¬ ((16:ℚ) ≤ x ∧ x < 32)),
      if_neg (by rintro ⟨a, b⟩; linarith : ¬ ((8:ℚ) ≤ x ∧ x < 16)),
      if_neg (by rintro ⟨a, b⟩; linarith : ¬ ((4:ℚ) ≤ x ∧ x < 8)),
      if_pos ⟨h1, h2⟩]

lemma applyCell_band5 (x : ℚ) (h1 : 4 ≤ x) (h2 : x < 8) :
    applyCell x = ⟨254, 152, 0, 255⟩ := by
  simp only [applyCell]
  rw [if_neg (by intro h; linarith : ¬ x ≤ 0),
      if_neg (by intro h; linarith : ¬ (32:ℚ) ≤ x),
      if_neg (by rintro ⟨a, b⟩; linarith : ¬ ((16:ℚ) ≤ x ∧ x < 32)),
      if_neg (by rintro ⟨a, b⟩; linarith : ¬ ((8:ℚ) ≤ x ∧ x < 16)),
      if_pos ⟨h1, h2⟩]

lemma applyCell_band6 (x : ℚ) (h1 : 8 ≤ x) (h2 : x < 16) :
    applyCell x = ⟨254, 0, 0, 255⟩ := by
  simp only [applyCell]
  rw [if_neg (by intro h; linarith : ¬ x ≤ 0),
      if_neg (by intro h; linarith : ¬ (32:ℚ) ≤ x),
      if_neg (by rintro ⟨a, b⟩; linarith : ¬ ((16:ℚ) ≤ x ∧ x < 32)),
      if_pos ⟨h1, h2⟩]

lemma applyCell_band7 (x : ℚ) (h1 : 16 ≤ x) (h2 : x < 32) :
    applyCell x = ⟨254, 0, 254, 255⟩ := by
  simp only [applyCell]
  rw [if_neg (by intro h; linarith : ¬ x ≤ 0),
      if_neg (by intro h; linarith : ¬ (32:ℚ) ≤ x),
      if_pos ⟨h1, h2⟩]

lemma applyCell_band8 (x : ℚ) (h1 : 32 ≤ x) :
    applyCell x = ⟨229, 254, 254, 255⟩ := by
  simp only [applyCell]
  rw [if_neg (by intro h; linarith : ¬ x ≤ 0), if_pos h1]

/-- Indexing into the output grid of `apply_colour_thresholds` lands on
the cellwise classifier applied to the corresponding source cell. -/
lemma cell_of_grid (data : List (List ℚ)) (i j : ℕ) (row : List ℚ) (x : ℚ)
    (orow : List RGBA) (c : RGBA)
    (hrow : data[i]? = some row) (hx : row[j]? = some x)
    (horow : (apply_colour_thresholds data)[i]? = some orow) (hc : orow[j]? = some c) :
    c = applyCell x := by
  unfold apply_colour_thresholds at horow
  rw [List.getElem?_map, hrow, Option.map_some', Option.some.injEq] at horow
  subst horow
  rw [List.getElem?_map, hx, Option.map_some', Option.some.injEq] at hc
  exact hc.symm

/-- Every rational falls in one of the ten regions cut out by the band
thresholds (non-positive, below the first band, the eight bands). -/
lemma rat_region_cases (x : ℚ) :
    x ≤ 0 ∨ (0 < x ∧ x < 1/100) ∨ (1/100 ≤ x ∧ x < 1/2) ∨ (1/2 ≤ x ∧ x < 1) ∨
    (1 ≤ x ∧ x < 2) ∨ (2 ≤ x ∧ x < 4) ∨ (4 ≤ x ∧ x < 8) ∨ (8 ≤ x ∧ x < 16) ∨
    (16 ≤ x ∧ x < 32) ∨ 32 ≤ x := by
  rcases le_or_lt x 0 with h | h
  · exact Or.inl h
  rcases lt_or_le x (1/100) with h1 | h1
  · exact Or.inr (Or.inl ⟨h, h1⟩)
  rcases lt_or_le x (1/2) with h2 | h2
  · exact Or.inr (Or.inr (Or.inl ⟨h1, h2⟩))
  rcases lt_or_le x 1 with h3 | h3
  · exact Or.inr (Or.inr (Or.inr (Or.inl ⟨h2, h3⟩)))
  rcases lt_or_le x 2 with h4 | h4
  · exact Or.inr (Or.inr (Or.inr (Or.inr (Or.inl ⟨h3, h4⟩))))
  rcases lt_or_le x 4 with h5 | h5
  · exact Or.inr (Or.inr (Or.inr (Or.inr (Or.inr (Or.inl ⟨h4, h5⟩)))))
  rcases lt_or_le x 8 with h6 | h6
  · exact Or.inr (Or.inr (Or.inr (Or.inr (Or.inr (Or.inr (Or.inl ⟨h5, h6⟩))))))
  rcases lt_or_le x 16 with h7 | h7
  · exact Or.inr (Or.inr (Or.inr (Or.inr (Or.inr (Or.inr (Or.inr (Or.inl ⟨h6, h7⟩)))))))
  rcases lt_or_le x 32 with h8 | h8
  · exact Or.inr (Or.inr (Or.inr (Or.inr (Or.inr (Or.inr (Or.inr (Or.inr (Or.inl ⟨h7, h8⟩))))))))
  · exact Or.inr (Or.inr (Or.inr (Or.inr (Or.inr (Or.inr (Or.inr (Or.inr (Or.inr h8))))))))

/-- A cell is transparent (alpha 0) exactly when its value lies below the
first band threshold 0.01 — including every value in the open interval
(0, 0.01), which matches no band and is left at the `np.zeros` default. -/
lemma applyCell_alpha_iff (x : ℚ) : (applyCell x).a = 0 ↔ x < 1/100 := by
  rcases rat_region_cases x with h | ⟨h0, h1⟩ | ⟨h1, h2⟩ | ⟨h1, h2⟩ | ⟨h1, h2⟩ | ⟨h1, h2⟩ |
    ⟨h1, h2⟩ | ⟨h1, h2⟩ | ⟨h1, h2⟩ | h1
  · rw [applyCell_of_nonpos x h]
    exact ⟨fun _ => by linarith, fun _ => rfl⟩
  · rw [applyCell_of_below x h0 h1]
    exact ⟨fun _ => h1, fun _ => rfl⟩
  · rw [applyCell_band1 x h1 h2]
    exact ⟨fun hc => absurd hc (by decide), fun hc => absurd hc (not_lt.mpr h1)⟩
  · rw [applyCell_band2 x h1 h2]
    exact ⟨fun hc => absurd hc (by decide), fun hc => absurd hc (by intro q; linarith)⟩
  · rw [applyCell_band3 x h1 h2]
    exact ⟨fun hc => absurd hc (by decide), fun hc => absurd hc (by intro q; linarith)⟩
  · rw [applyCell_band4 x h1 h2]
    exact ⟨fun hc => absurd hc (by decide), fun hc => absurd hc (by intro q; linarith)⟩
  · rw [applyCell_band5 x h1 h2]
    exact ⟨fun hc => absurd hc (by decide), fun hc => absurd hc (by intro q; linarith)⟩
  · rw [applyCell_band6 x h1 h2]
    exact ⟨fun hc => absurd hc (by decide), fun hc => absurd hc (by intro q; linarith)⟩
  · rw [applyCell_band7 x h1 h2]
    exact ⟨fun hc => absurd hc (by decide), fun hc => absurd hc (by intro q; linarith)⟩
  · rw [applyCell_band8 x h1]
    exact ⟨fun hc => absurd hc (by decide), fun hc => absurd hc (by intro q; linarith)⟩

/-- Every cell of the output is either one of the eight opaque palette
colours or transparent black. -/
lemma applyCell_palette_or_clear (x : ℚ) :
    (applyCell x ∈ palette ∧ (applyCell x).a = 255) ∨ applyCell x = ⟨0, 0, 0, 0⟩ := by
  rcases rat_region_cases x with h | ⟨h0, h1⟩ | ⟨h1, h2⟩ | ⟨h1, h2⟩ | ⟨h1, h2⟩ | ⟨h1, h2⟩ |
    ⟨h1, h2⟩ | ⟨h1, h2⟩ | ⟨h1, h2⟩ | h1
  · exact Or.inr (applyCell_of_nonpos x h)
  · exact Or.inr (applyCell_of_below x h0 h1)
  · exact Or.inl (by rw [applyCell_band1 x h1 h2]; exact ⟨by decide, rfl⟩)
  · exact Or.inl (by rw [applyCell_band2 x h1 h2]; exact ⟨by decide, rfl⟩)
  · exact Or.inl (by rw [applyCell_band3 x h1 h2]; exact ⟨by decide, rfl⟩)
  · exact Or.inl (by rw [applyCell_band4 x h1 h2]; exact ⟨by decide, rfl⟩)
  · exact Or.inl (by rw [applyCell_band5 x h1 h2]; exact ⟨by decide, rfl⟩)
  · exact Or.inl (by rw [applyCell_band6 x h1 h2]; exact ⟨by decide, rfl⟩)
  · exact Or.inl (by rw [applyCell_band7 x h1 h2]; exact ⟨by decide, rfl⟩)
  · exact Or.inl (by rw [applyCell_band8 x h1]; exact ⟨by decide, rfl⟩)

/-- Values at or above the first threshold match exactly one band mask. -/
lemma matchCount_eq_one (x : ℚ) (hx : 1/100 ≤ x) : matchCount x = 1 := by
  rcases rat_region_cases x with h | ⟨h0, h1⟩ | ⟨h1, h2⟩ | ⟨h1, h2⟩ | ⟨h1, h2⟩ | ⟨h1, h2⟩ |
    ⟨h1, h2⟩ | ⟨h1, h2⟩ | ⟨h1, h2⟩ | h1
  · linarith
  · linarith
  · simp only [matchCount]
    rw [if_pos ⟨h1, h2⟩,
        if_neg (by rintro ⟨a, b⟩; linarith : ¬ (1/2 ≤ x ∧ x < 1)),
        if_neg (by rintro ⟨a, b⟩; linarith : ¬ ((1:ℚ) ≤ x ∧ x < 2)),
        if_neg (by rintro ⟨a, b⟩; linarith : ¬ ((2:ℚ) ≤ x ∧ x < 4)),
        if_neg (by rintro ⟨a, b⟩; linarith : ¬ ((4:ℚ) ≤ x ∧ x < 8)),
        if_neg (by rintro ⟨a, b⟩; linarith : ¬ ((8:ℚ) ≤ x ∧ x < 16)),
        if_neg (by rintro ⟨a, b⟩; linarith : ¬ ((16:ℚ) ≤ x ∧ x < 32)),
        if_neg (by intro a; linarith : ¬ (32:ℚ) ≤ x)]
  · simp only [matchCount]
    rw [if_neg (by rintro ⟨a, b⟩; linarith : ¬ (1/100 ≤ x ∧ x < 1/2)),
        if_pos ⟨h1, h2⟩,
        if_neg (by rintro ⟨a, b⟩; linarith : ¬ ((1:ℚ) ≤ x ∧ x < 2)),
        if_neg (by rintro ⟨a, b⟩; linarith : ¬ ((2:ℚ) ≤ x ∧ x < 4)),
        if_neg (by rintro ⟨a, b⟩; linarith : ¬ ((4:ℚ) ≤ x ∧ x < 8)),
        if_neg (by rintro ⟨a, b⟩; linarith : ¬ ((8:ℚ) ≤ x ∧ x < 16)),
        if_neg (by rintro ⟨a, b⟩; linarith : ¬ ((16:ℚ) ≤ x ∧ x < 32)),
        if_neg (by intro a; linarith : ¬ (32:ℚ) ≤ x)]
  · simp only [matchCount]
    rw [if_neg (by rintro ⟨a, b⟩; linarith : ¬ (1/100 ≤ x ∧ x < 1/2)),
        if_neg (by rintro ⟨a, b⟩; linarith : ¬ (1/2 ≤ x ∧ x < 1)),
        if_pos ⟨h1, h2⟩,
        if_neg (by rintro ⟨a, b⟩; linarith : ¬ ((2:ℚ) ≤ x ∧ x < 4)),
        if_neg (by rintro ⟨a, b⟩; linarith : ¬ ((4:ℚ) ≤ x ∧ x < 8)),
        if_neg (by rintro ⟨a, b⟩; linarith : ¬ ((8:ℚ) ≤ x ∧ x < 16)),
        if_neg (by rintro ⟨a, b⟩; linarith : ¬ ((16:ℚ) ≤ x ∧ x < 32)),
        if_neg (by intro a; linarith : ¬ (32:ℚ) ≤ x)]
  · simp only [matchCount]
    rw [if_neg (by rintro ⟨a, b⟩; linarith : ¬ (1/100 ≤ x ∧ x < 1/2)),
        if_neg (by rintro ⟨a, b⟩; linarith : ¬ (1/2 ≤ x ∧ x < 1)),
        if_neg (by rintro ⟨a, b⟩; linarith : ¬ ((1:ℚ) ≤ x ∧ x < 2)),
        if_pos ⟨h1, h2⟩,
        if_neg (by rintro ⟨a, b⟩; linarith : ¬ ((4:ℚ) ≤ x ∧ x < 8)),
        if_neg (by rintro ⟨a, b⟩; linarith : ¬ ((8:ℚ) ≤ x ∧ x < 16)),
        if_neg (by rintro ⟨a, b⟩; linarith : ¬ ((16:ℚ) ≤ x ∧ x < 32)),
        if_neg (by intro a; linarith : ¬ (32:ℚ) ≤ x)]
  · simp only [matchCount]
    rw [if_neg (by rintro ⟨a, b⟩; linarith : ¬ (1/100 ≤ x ∧ x < 1/2)),
        if_neg (by rintro ⟨a, b⟩; linarith : ¬ (1/2 ≤ x ∧ x < 1)),
        if_neg (by rintro ⟨a, b⟩; linarith : ¬ ((1:ℚ) ≤ x ∧ x < 2)),
        if_neg (by rintro ⟨a, b⟩; linarith : ¬ ((2:ℚ) ≤ x ∧ x < 4)),
        if_pos ⟨h1, h2⟩,
        if_neg (by rintro ⟨a, b⟩; linarith : ¬ ((8:ℚ) ≤ x ∧ x < 16)),
        if_neg (by rintro ⟨a, b⟩; linarith : ¬ ((16:ℚ) ≤ x ∧ x < 32)),
        if_neg (by intro a; linarith : ¬ (32:ℚ) ≤ x)]
  · simp only [matchCount]
    rw [if_neg (by rintro ⟨a, b⟩; linarith : ¬ (1/100 ≤ x ∧ x < 1/2)),
        if_neg (by rintro ⟨a, b⟩; linarith : ¬ (1/2 ≤ x ∧ x < 1)),
        if_neg (by rintro ⟨a, b⟩; linarith : ¬ ((1:ℚ) ≤ x ∧ x < 2)),
        if_neg (by rintro ⟨a, b⟩; linarith : ¬ ((2:ℚ) ≤ x ∧ x < 4)),
        if_neg (by rintro ⟨a, b⟩; linarith : ¬ ((4:ℚ) ≤ x ∧ x < 8)),
        if_pos ⟨h1, h2⟩,
        if_neg (by rintro ⟨a, b⟩; linarith : ¬ ((16:ℚ) ≤ x ∧ x < 32)),
        if_neg (by intro a; linarith : ¬ (32:ℚ) ≤ x)]
  · simp only [matchCount]
    rw [if_neg (by rintro ⟨a, b⟩; linarith : ¬ (1/100 ≤ x ∧ x < 1/2)),
        if_neg (by rintro ⟨a, b⟩; linarith : ¬ (1/2 ≤ x ∧ x < 1)),
        if_neg (by rintro ⟨a, b⟩; linarith : ¬ ((1:ℚ) ≤ x ∧ x < 2)),
        if_neg (by rintro ⟨a, b⟩; linarith : ¬ ((2:ℚ) ≤ x ∧ x < 4)),
        if_neg (by rintro ⟨a, b⟩; linarith : ¬ ((4:ℚ) ≤ x ∧ x < 8)),
        if_neg (by rintro ⟨a, b⟩; linarith : ¬ ((8:ℚ) ≤ x ∧ x < 16)),
        if_pos ⟨h1, h2⟩,
        if_neg (by intro a; linarith : ¬ (32:ℚ) ≤ x)]
  · simp only [matchCount]
    rw [if_neg (by rintro ⟨a, b⟩; linarith : ¬ (1/100 ≤ x ∧ x < 1/2)),
        if_neg (by rintro ⟨a, b⟩; linarith : ¬ (1/2 ≤ x ∧ x < 1)),
        if_neg (by rintro ⟨a, b⟩; linarith : ¬ ((1:ℚ) ≤ x ∧ x < 2)),
        if_neg (by rintro ⟨a, b⟩; linarith : ¬ ((2:ℚ) ≤ x ∧ x < 4)),
        if_neg (by rintro ⟨a, b⟩; linarith : ¬ ((4:ℚ) ≤ x ∧ x < 8)),
        if_neg (by rintro ⟨a, b⟩; linarith : ¬ ((8:ℚ) ≤ x ∧ x < 16)),
        if_neg (by rintro ⟨a, b⟩; linarith : ¬ ((16:ℚ) ≤ x ∧ x < 32)),
        if_pos h1]

/-- C1, counterexample: the cell with source value 1/200 = 0.005 is
strictly positive, yet its output alpha is 0 — it matches no band (all
bands start at 0.01) and is left at the `np.zeros` default, so "alpha 0
iff value ≤ 0" fails in the only-if direction. -/
theorem C1_counterexample :
    apply_colour_thresholds [[1/200]] = [[⟨0, 0, 0, 0⟩]] ∧ ¬ ((1:ℚ)/200 ≤ 0) := by
  constructor
  · simp only [apply_colour_thresholds, List.map]
    rw [applyCell_of_below (1/200) (by norm_num) (by norm_num)]
  · norm_num

/-- C1 (amended): for every input grid and cell, the output alpha is 0
iff the source value is < 0.01: values ≤ 0 by the transparency override,
and values in (0, 0.01) because they match no band and are left at the
zero-initialised default. -/
theorem C1_alpha_iff_below_threshold (data : List (List ℚ)) (i j : ℕ) (row : List ℚ)
    (x : ℚ) (orow : List RGBA) (c : RGBA)
    (hrow : data[i]? = some row) (hx : row[j]? = some x)
    (horow : (apply_colour_thresholds data)[i]? = some orow) (hc : orow[j]? = some c) :
    c.a = 0 ↔ x < 1/100 := by
  rw [cell_of_grid data i j row x orow c hrow hx horow hc]
  exact applyCell_alpha_iff x

theorem C1_witness :
    ((⟨0, 0, 0, 0⟩ : RGBA).a = 0 ↔ (1:ℚ)/200 < 1/100) :=
  C1_alpha_iff_below_threshold [[1/200]] 0 0 [1/200] (1/200) [⟨0, 0, 0, 0⟩] ⟨0, 0, 0, 0⟩
    rfl rfl
    (by simp only [apply_colour_thresholds, List.map]
        rw [applyCell_of_below (1/200) (by norm_num) (by norm_num)]
        rfl)
    rfl

/-- C2, counterexample: 1/200 = 0.005 is strictly positive but is matched
by zero of the eight band masks, not exactly one, and its output cell is
transparent black rather than an opaque RGB triple. -/
theorem C2_counterexample :
    (0:ℚ) < 1/200 ∧ matchCount (1/200) ≠ 1 ∧ applyCell (1/200) = ⟨0, 0, 0, 0⟩ := by
  refine ⟨by norm_num, ?_, applyCell_of_below (1/200) (by norm_num) (by norm_num)⟩
  norm_num [matchCount]

/-- C2 (amended): every cell whose value is at least the first threshold
0.01 is matched by exactly one band mask (the bands are contiguous and
non-overlapping from 0.01 on, with a final open-ended band), and such a
cell is assigned an opaque palette colour by `apply_colour_thresholds`. -/
theorem C2_exactly_one_band (data : List (List ℚ)) (i j : ℕ) (row : List ℚ)
    (x : ℚ) (orow : List RGBA) (c : RGBA)
    (hrow : data[i]? = some row) (hx : row[j]? = some x)
    (horow : (apply_colour_thresholds data)[i]? = some orow) (hc : orow[j]? = some c)
    (hpos : 1/100 ≤ x) :
    matchCount x = 1 ∧ c ∈ palette ∧ c.a = 255 := by
  obtain rfl := cell_of_grid data i j row x orow c hrow hx horow hc
  have hpc : applyCell x ∈ palette ∧ (applyCell x).a = 255 := by
    rcases applyCell_palette_or_clear x with h | hclear
    · exact h
    · exfalso
      have h0 : (applyCell x).a = 0 := by rw [hclear]
      have := (applyCell_alpha_iff x).mp h0
      linarith
  exact ⟨matchCount_eq_one x hpos, hpc.1, hpc.2⟩

theorem C2_witness :
    matchCount 2 = 1 ∧ (⟨254, 203, 0, 255⟩ : RGBA) ∈ palette ∧
      (⟨254, 203, 0, 255⟩ : RGBA).a = 255 :=
  C2_exactly_one_band [[2]] 0 0 [2] 2 [⟨254, 203, 0, 255⟩] ⟨254, 203, 0, 255⟩
    rfl rfl
    (by simp only [apply_colour_thresholds, List.map]
        rw [applyCell_band4 2 (by norm_num) (by norm_num)]
        rfl)
    rfl (by norm_num)

/-- C8: the observation grid [[0, 0.3], [1.5, 35]] classifies to
transparent, dark blue, green and whiteish respectively. -/
theorem C8_scenario :
    apply_colour_thresholds [[0, 3/10], [3/2, 35]] =
      [[⟨0, 0, 0, 0⟩, ⟨0, 0, 254, 255⟩],
       [⟨127, 127, 0, 255⟩, ⟨229, 254, 254, 255⟩]] := by
  simp only [apply_colour_thresholds, List.map]
  rw [applyCell_of_nonpos 0 le_rfl,
      applyCell_band1 (3/10) (by norm_num) (by norm_num),
      applyCell_band3 (3/2) (by norm_num) (by norm_num),
      applyCell_band8 35 (by norm_num)]

/-- C10: every cell of the RGBA output is either one of the eight opaque
palette colours (alpha exactly 255) or exactly transparent black
(0,0,0,0); no partial alpha, no nonzero RGB with alpha 0. -/
theorem C10_opaque_or_clear (data : List (List ℚ)) (i j : ℕ) (row : List ℚ)
    (x : ℚ) (orow : List RGBA) (c : RGBA)
    (hrow : data[i]? = some row) (hx : row[j]? = some x)
    (horow : (apply_colour_thresholds data)[i]? = some orow) (hc : orow[j]? = some c) :
    (c ∈ palette ∧ c.a = 255) ∨ c = ⟨0, 0, 0, 0⟩ := by
  obtain rfl := cell_of_grid data i j row x orow c hrow hx horow hc
  exact applyCell_palette_or_clear x

theorem C10_witness :
    ((⟨0, 0, 0, 0⟩ : RGBA) ∈ palette ∧ (⟨0, 0, 0, 0⟩ : RGBA).a = 255) ∨
      (⟨0, 0, 0, 0⟩ : RGBA) = ⟨0, 0, 0, 0⟩ :=
  C10_opaque_or_clear [[0]] 0 0 [0] 0 [⟨0, 0, 0, 0⟩] ⟨0, 0, 0, 0⟩
    rfl rfl
    (by simp only [apply_colour_thresholds, List.map]
        rw [applyCell_of_nonpos 0 le_rfl]
        rfl)
    rfl

/-- With `stop_on_catchup=false` the file loop never raises the halting
flag. -/
lemma crawlFiles_no_halt (colour : Bool) (keys : List String) (st : CrawlState) :
    (crawlFiles false colour keys st).2 = false := by
  induction keys generalizing st with
  | nil => rfl
  | cons k rest ih =>
    rw [crawlFiles]
    split
    · exact ih st
    · exact ih _

/-- With `stop_on_catchup=false` the day loop never halts early. -/
lemma crawlDays_no_halt (colour : Bool) (days : List DayDir) (st : CrawlState) :
    (crawlDays false colour days st).2 = false := by
  induction days generalizing st with
  | nil => rfl
  | cons d rest ih =>
    simp only [crawlDays]
    rw [if_neg (by simp [crawlFiles_no_halt])]
    exact ih _

/-- With `stop_on_catchup=false` the month loop never halts early. -/
lemma crawlMonths_no_halt (colour : Bool) (months : List MonthDir) (st : CrawlState) :
    (crawlMonths false colour months st).2 = false := by
  induction months generalizing st with
  | nil => rfl
  | cons m rest ih =>
    simp only [crawlMonths]
    rw [if_neg (by simp [crawlDays_no_halt])]
    exact ih _

/-- With `stop_on_catchup=false` the year loop never halts early. -/
lemma crawlYears_no_halt (colour : Bool) (years : List YearDir) (st : CrawlState) :
    (crawlYears false colour years st).2 = false := by
  induction years generalizing st with
  | nil => rfl
  | cons y rest ih =>
    simp only [crawlYears]
    rw [if_neg (by simp [crawlMonths_no_halt])]
    exact ih _

/-- C3: with `stop_on_catchup=true`, the first file key whose conversion
record exists terminates the entire crawl at once (the `return` of
src/menu.py line 69), and on the three-day synthetic archive with a
record only for D2, the descending crawl downloads and converts D3's
file only and stops — D1's file is never visited. -/
theorem C3_catchup_stop :
    (∀ (colour : Bool) (key : String) (rest : List String) (st : CrawlState),
        processed_file_exists key st.outputs = true →
        crawlFiles true colour (key :: rest) st = (st, true)) ∧
    process_until_caught_up scenarioArchive false true scenarioInit =
      (⟨["radar/2024/01/03/obs3.h5"],
        ["obs2_greyscale.tif", "obs3_greyscale.tif"]⟩, true) := by
  constructor
  · intro colour key rest st h
    simp [crawlFiles, h]
  · decide

theorem C3_witness :
    crawlFiles true false ["radar/2024/01/02/obs2.h5"] scenarioInit = (scenarioInit, true) :=
  C3_catchup_stop.1 false "radar/2024/01/02/obs2.h5" [] scenarioInit (by decide)

/-- C4: with `stop_on_catchup=false` the crawl never terminates early
(its halting flag is false on every archive, so every key is reached, in
the descending traversal order), and on the three-day scenario it
processes D3's and D1's files and skips D2's already-recorded file while
still visiting all three days. -/
theorem C4_full_backfill :
    (∀ (colour : Bool) (archive : Archive) (st : CrawlState),
        (process_until_caught_up archive colour false st).2 = false) ∧
    process_until_caught_up scenarioArchive false false scenarioInit =
      (⟨["radar/2024/01/03/obs3.h5", "radar/2024/01/01/obs1.h5"],
        ["obs2_greyscale.tif", "obs3_greyscale.tif", "obs1_greyscale.tif"]⟩, false) := by
  constructor
  · intro colour archive st
    simp only [process_until_caught_up]
    exact crawlYears_no_halt colour _ st
  · decide

/-- C9: the idempotency check depends only on the key's basename (two
keys with the same final filename under different date prefixes get the
same answer), it holds exactly when a record under either naming scheme
exists, and in particular a `<base>_coloured.tif` record alone makes the
check true — so a lossless-mode crawl skips files previously converted
only in colour mode, and same-named files from different days share one
conversion record. -/
theorem C9_basename_only :
    (∀ (k1 k2 : String) (fs : List String), basename k1 = basename k2 →
        processed_file_exists k1 fs = processed_file_exists k2 fs) ∧
    (∀ (k : String) (fs : List String),
        processed_file_exists k fs = true ↔
          (stripExt (basename k) ++ "_greyscale.tif") ∈ fs ∨
          (stripExt (basename k) ++ "_coloured.tif") ∈ fs) ∧
    (∀ (k : String) (fs : List String),
        (stripExt (basename k) ++ "_coloured.tif") ∈ fs →
        processed_file_exists k fs = true) := by
  refine ⟨?_, ?_, ?_⟩
  · intro k1 k2 fs h
    simp only [processed_file_exists, h]
  · intro k fs
    simp [processed_file_exists]
  · intro k fs h
    simp [processed_file_exists, h]

theorem C9_witness :
    processed_file_exists "radar/2023/01/02/obs.h5" ["obs_coloured.tif"] =
      processed_file_exists "radar/2024/11/30/obs.h5" ["obs_coloured.tif"] :=
  C9_basename_only.1 "radar/2023/01/02/obs.h5" "radar/2024/11/30/obs.h5"
    ["obs_coloured.tif"] (by decide)

/-- C5: for bounds with ll_lon < ur_lon, ll_lat < ur_lat and positive
dimensions, the geo-transform maps pixel (0,0) to the upper-left corner
(ll_lon, ur_lat) and pixel (width, height) to (ur_lon, ll_lat). -/
theorem C5_transform_corners (ll_lon ll_lat ur_lon ur_lat : ℚ) (width height : ℕ)
    (hlon : ll_lon < ur_lon) (hlat : ll_lat < ur_lat)
    (hw : 0 < width) (hh : 0 < height) :
    (from_bounds ll_lon ll_lat ur_lon ur_lat width height).apply 0 0 = (ll_lon, ur_lat) ∧
    (from_bounds ll_lon ll_lat ur_lon ur_lat width height).apply width height =
      (ur_lon, ll_lat) := by
  have hw0 : (width : ℚ) ≠ 0 := Nat.cast_ne_zero.mpr hw.ne'
  have hh0 : (height : ℚ) ≠ 0 := Nat.cast_ne_zero.mpr hh.ne'
  constructor
  · simp [from_bounds, Affine.apply]
  · simp only [from_bounds, Affine.apply, Prod.mk.injEq]
    constructor
    · rw [div_mul_cancel₀ _ hw0]; ring
    · rw [div_mul_cancel₀ _ hh0]; ring

theorem C5_witness :
    (from_bounds (-2) 50 0 52 200 100).apply 0 0 = (-2, 52) ∧
    (from_bounds (-2) 50 0 52 200 100).apply ((200:ℕ):ℚ) ((100:ℕ):ℚ) = (0, 50) :=
  C5_transform_corners (-2) 50 0 52 200 100 (by norm_num) (by norm_num)
    (by norm_num) (by norm_num)

/-- C6, counterexample: with bounds (-2, 50, 0, 52) and a grid of height
100 and width 200 the transform's y pixel size is (50−52)/100 = −1/50 =
−0.02, which differs from the claimed −0.01. -/
theorem C6_counterexample :
    (from_bounds (-2) 50 0 52 200 100).e = -1/50 ∧ ((-1)/50 : ℚ) ≠ -1/100 := by
  constructor
  · norm_num [from_bounds]
  · norm_num

/-- C6 (amended): those bounds and dimensions give pixel size
(0.01, −0.02) in (x, y), i.e. (1/100, −1/50). -/
theorem C6_pixel_size :
    (from_bounds (-2) 50 0 52 200 100).a = 1/100 ∧
    (from_bounds (-2) 50 0 52 200 100).e = -1/50 := by
  constructor <;> norm_num [from_bounds]

/-- C7 (code bug): the claim matches the spec's contract, but the code
removes `temp_output.tif` only on the success path — when the final
compressed write fails after the temporary file was created, the
exception propagates before the cleanup of src/main.py lines 148-149 and
the temporary file stays in the output folder.  On success it is
removed. -/
theorem C7_temp_left_on_failure :
    process_radar_file .ok .err "radar_output_greyscale.tif" [] =
      .error ["temp_output.tif"] ∧
    process_radar_file .ok .ok "radar_output_greyscale.tif" [] =
      .ok (["radar_output_greyscale.tif"], "radar_output_greyscale.tif") := by
  constructor
  · rfl
  · rfl
